import Mathlib

/-!
# QuoteGenerator: the quote-acquisition pipeline and the favorites store of `script.js`

The global variables of `script.js` become the fields of `Session`; every function of the
script that the development needs becomes a function on `Session`.  What the outside world
answers during one `fetchQuote` call (network responses, `Date.now()`, `Math.random()`) is
an explicit argument, `World`.  A `fetchQuote` call is taken as one step: the event loop does
not run another handler between its `await`s.
-/

namespace QuoteGenerator

/-! ## JavaScript values -/

/-- A JavaScript value as far as the script tells values apart.  Objects and arrays are
carried by reference (`obj ref`), which is what `===` and `Set` compare.  Numbers are taken
to be integers (a parsed JSON document holds no `NaN`; fractional numbers are left out), so
`===` and the comparison of `Set` are both equality of this type. -/
inductive JsVal where
  | undefined
  | null
  | bool (b : Bool)
  | num (n : Int)
  | str (s : String)
  | obj (ref : Nat)
  deriving DecidableEq, Repr

/-- Truthiness, as `||`, `if (...)` and `!` read a value. -/
def JsVal.truthy : JsVal → Bool
  | .undefined => false
  | .null => false
  | .bool b => b
  | .num n => n != 0
  | .str s => s != ""
  | .obj _ => true

/-- A parsed JSON document (the value of `await response.json()`): its root value and the
property table of the objects and arrays inside it (`undefined` for an absent property). -/
structure Json where
  root : JsVal
  props : Nat → String → JsVal

/-- Property read `v[key]` inside document `d`, for the keys the script reads
(`content`, `author`, `tags`, `_id`, `q`, `a`, `0`).  `none` is the `TypeError` of reading a
property of `undefined` or `null`. -/
def Json.get (d : Json) (v : JsVal) (key : String) : Option JsVal :=
  match v with
  | .undefined => none
  | .null => none
  | .bool _ => some .undefined
  | .num _ => some .undefined
  | .str s =>
    if key = "0" then
      match s.data with
      | [] => some .undefined
      | c :: _ => some (.str (String.singleton c))
    else some .undefined
  | .obj ref => some (d.props ref key)

/-- The call `v.substring(0, 40)` of the two `console.log` lines: it succeeds exactly on a
string; `none` is the `TypeError` (`v` is `undefined`, `null`, or has no such method). -/
def substringOk (v : JsVal) : Option String :=
  match v with
  | .str s => some s
  | _ => none

/-! ## Data model -/

/-- The category buttons of the page. -/
inductive Category where
  | all
  | inspirational
  | life
  | success
  | wisdom
  deriving DecidableEq, Repr

/-- The string a category is written as (`btn.dataset.category`). -/
def Category.name : Category → String
  | .all => "all"
  | .inspirational => "inspirational"
  | .life => "life"
  | .success => "success"
  | .wisdom => "wisdom"

/-- The `tags` field of a quote: either the value taken from the payload (`data.tags`) or an
array literal built by the script. -/
inductive Tags where
  | payload (v : JsVal)
  | array (items : List String)
  deriving DecidableEq, Repr

/-- The object literal `{ text, author, tags, id }` the providers return. -/
structure Quote where
  text : JsVal
  author : JsVal
  tags : Tags
  id : JsVal
  deriving DecidableEq, Repr

/-- An entry of `fallbackQuotes`. -/
structure FallbackQuote where
  text : String
  author : String
  deriving DecidableEq, Repr

/-- The embedded list `fallbackQuotes`. -/
def fallbackQuotes : List FallbackQuote :=
  [ ⟨"Жизнь - это то, что происходит с вами, пока вы строите другие планы.", "Джон Леннон"⟩,
    ⟨"Будьте собой; все остальные роли уже заняты.", "Оскар Уайльд"⟩,
    ⟨"Два дня в году, когда ничего нельзя сделать. Один называется вчера, другой - завтра.",
      "Далай Лама"⟩,
    ⟨"Успех - это способность идти от неудачи к неудаче, не теряя энтузиазма.",
      "Уинстон Черчилль"⟩,
    ⟨"Единственный способ делать великие дела - это любить то, что вы делаете.",
      "Стив Джобс"⟩ ]

/-- One value of `Math.random()`: a number `num / den` in `[0, 1)`, with `text` the decimal
rendering a template literal gives it.  `Math.floor(r * n)` is taken on the exact product. -/
structure Random where
  num : Nat
  den : Nat
  lt : num < den
  text : String

/-- The value of `Math.floor(Math.random() * n)`. -/
def Random.floorMul (r : Random) (n : Nat) : Nat := r.num * n / r.den

/-- What `fetch(url, ...)` followed by `response.json()` gives. -/
inductive FetchResult where
  /-- The promise of `fetch` rejects (network failure). -/
  | rejected
  /-- A response with its `ok` flag; `body = none` when `response.json()` rejects. -/
  | response (ok : Bool) (body : Option Json)

/-- A provider call made by `fetchQuote`, in the order made; the remote ones with the URL
they request. -/
inductive Call where
  | tryQuotableAPI (url : String)
  | tryZenQuotesAPI (url : String)
  | getRandomFallbackQuote
  deriving DecidableEq, Repr

/-- What the outside world answers during one `fetchQuote` call, one field per place of the
script that asks. -/
structure World where
  /-- The `Date.now()` and the response of the first `tryQuotableAPI()` (line 46). -/
  quotableNow : Nat
  quotable : FetchResult
  /-- The `Date.now()` of the URL and the response in `tryZenQuotesAPI()` (line 49). -/
  zenNow : Nat
  zen : FetchResult
  /-- The `Date.now()` and `Math.random()` of the synthetic id in `tryZenQuotesAPI()`. -/
  zenIdNow : Nat
  zenIdRandom : Random
  /-- The draws of `getRandomFallbackQuote()` (line 53): index, then id. -/
  fallbackIndex : Random
  fallbackIdNow : Nat
  fallbackIdRandom : Random
  /-- The `Date.now()` and the response of the retry `tryQuotableAPI()` (line 59). -/
  retryNow : Nat
  retry : FetchResult

/-- The parts of the page the script writes to. -/
structure View where
  /-- The element `loading` is displayed. -/
  loadingVisible : Bool
  /-- The element `quoteDisplay` is displayed. -/
  quoteVisible : Bool
  /-- The quote whose text, author and tags `displayQuote` wrote last. -/
  shownQuote : Option Quote
  /-- The favorite button carries the class `favorite-active`. -/
  favoriteActive : Bool
  /-- The element `copyMessage` is displayed. -/
  copyMessageVisible : Bool
  /-- The element `favoritesSection` is displayed. -/
  favoritesSectionVisible : Bool
  /-- The number written to `favoritesCount`. -/
  favoritesCount : Nat
  /-- The items of `favoritesList`, top to bottom. -/
  favoritesList : List Quote
  deriving DecidableEq, Repr

/-- The global variables of the script, and the page. -/
structure Session where
  currentQuote : Option Quote
  favorites : List Quote
  currentCategory : Category
  isLoading : Bool
  lastQuoteId : JsVal
  /-- The `Set` `usedQuoteIds`, in insertion order, without repetition. -/
  usedQuoteIds : List JsVal
  view : View
  deriving DecidableEq, Repr

/-- The state after the declarations at the top of the script, on a page `view`. -/
def Session.init (view : View) : Session :=
  { currentQuote := none
    favorites := []
    currentCategory := .all
    isLoading := false
    lastQuoteId := .null
    usedQuoteIds := []
    view := view }

/-- The method `Set.prototype.add`: a value already in the set is not added again. -/
def setAdd (s : List JsVal) (v : JsVal) : List JsVal :=
  if v ∈ s then s else s ++ [v]

/-! ## Providers -/

/-- The object literal `tagMap` of `tryQuotableAPI`, read at `currentCategory`. -/
def tagMap : Category → Option String
  | .all => none
  | .inspirational => some "inspirational"
  | .life => some "life"
  | .success => some "success"
  | .wisdom => some "wisdom"

/-- The URL `tryQuotableAPI` requests (lines 88-104): the category tag when the category is
not `all`, then the `nocache` timestamp. -/
def quotableUrl (currentCategory : Category) (now : Nat) : String :=
  let url := "https://api.quotable.io/random"
  let url :=
    if currentCategory ≠ .all then
      match tagMap currentCategory with
      | some tag => url ++ "?tags=" ++ tag
      | none => url
    else url
  url ++ (if url.contains '?' then "&" else "?") ++ "nocache=" ++ toString now

/-- What `tryQuotableAPI` returns on the answer `r` of its request (lines 106-130); `none`
is the `null` of its `catch`. -/
def tryQuotableAPI (r : FetchResult) : Option Quote :=
  match r with
  | .rejected => none
  | .response ok body =>
    if !ok then none
    else
      match body with
      | none => none
      | some data =>
        match data.get data.root "content" with
        | none => none
        | some content =>
          match substringOk content with
          | none => none
          | some _ =>
            match data.get data.root "author", data.get data.root "tags",
              data.get data.root "_id" with
            | some author, some tags, some id =>
              some
                { text := content
                  author := author
                  tags := if tags.truthy then .payload tags else .array []
                  id := id }
            | _, _, _ => none

/-- The URL `tryZenQuotesAPI` requests (line 136). -/
def zenUrl (now : Nat) : String :=
  "https://zenquotes.io/api/random/" ++ toString now

/-- What `tryZenQuotesAPI` returns on the answer `r` of its request (lines 138-159), with
`idNow` and `idRandom` the `Date.now()` and `Math.random()` of the id it builds. -/
def tryZenQuotesAPI (currentCategory : Category) (idNow : Nat) (idRandom : Random)
    (r : FetchResult) : Option Quote :=
  match r with
  | .rejected => none
  | .response ok body =>
    if !ok then none
    else
      match body with
      | none => none
      | some data =>
        match data.get data.root "0" with
        | none => none
        | some quote =>
          match data.get quote "q" with
          | none => none
          | some q =>
            match substringOk q with
            | none => none
            | some _ =>
              match data.get quote "a" with
              | none => none
              | some a =>
                some
                  { text := q
                    author := a
                    tags := .array
                      [if currentCategory ≠ .all then currentCategory.name else "wisdom"]
                    id := .str ("zen_" ++ toString idNow ++ "_" ++ idRandom.text) }

/-- The function `getRandomFallbackQuote`, with `index` the `Math.random()` of the index and
`idNow`, `idRandom` the `Date.now()` and `Math.random()` of the id.  The index
`Math.floor(Math.random() * fallbackQuotes.length)` is below the length, so the entry read
is there. -/
def getRandomFallbackQuote (index : Random) (idNow : Nat) (idRandom : Random) : Quote :=
  let quote := fallbackQuotes.get ⟨index.floorMul fallbackQuotes.length, by
    have h := index.lt
    unfold Random.floorMul
    apply Nat.div_lt_of_lt_mul
    exact Nat.mul_lt_mul_of_pos_right h (by decide)⟩
  { text := .str quote.text
    author := .str quote.author
    tags := .array ["wisdom"]
    id := .str ("fallback_" ++ toString idNow ++ "_" ++ idRandom.text) }

/-! ## The page -/

/-- The function `updateFavoriteButton`. -/
def updateFavoriteButton (s : Session) : Session :=
  match s.currentQuote with
  | none => s
  | some currentQuote =>
    let isFavorite := s.favorites.any (fun fav => fav.id == currentQuote.id)
    { s with view := { s.view with favoriteActive := isFavorite } }

/-- The function `displayQuote`. -/
def displayQuote (s : Session) : Session :=
  match s.currentQuote with
  | none => s
  | some currentQuote =>
    let s := { s with view := { s.view with shownQuote := some currentQuote } }
    let s := updateFavoriteButton s
    { s with view := { s.view with loadingVisible := false, quoteVisible := true } }

/-- The function `showLoading`. -/
def showLoading (s : Session) : Session :=
  { s with view := { s.view with loadingVisible := true, quoteVisible := false } }

/-- The function `hideCopyMessage`. -/
def hideCopyMessage (s : Session) : Session :=
  { s with view := { s.view with copyMessageVisible := false } }

/-- The function `updateFavoritesDisplay`: the list shown is
`favorites.slice(0, 5).reverse()`. -/
def updateFavoritesDisplay (s : Session) : Session :=
  if s.favorites.length = 0 then
    { s with view := { s.view with favoritesSectionVisible := false } }
  else
    { s with view :=
      { s.view with
        favoritesSectionVisible := true
        favoritesCount := s.favorites.length
        favoritesList := (s.favorites.take 5).reverse } }

/-! ## Quote acquisition -/

/-- Lines 46-54 of `fetchQuote`: the providers in sequence, each called only when the ones
before it returned `null`.  The result is the quote and the calls made. -/
def providerChain (currentCategory : Category) (w : World) : Quote × List Call :=
  let calls := [Call.tryQuotableAPI (quotableUrl currentCategory w.quotableNow)]
  match tryQuotableAPI w.quotable with
  | some quote => (quote, calls)
  | none =>
    let calls := calls ++ [Call.tryZenQuotesAPI (zenUrl w.zenNow)]
    match tryZenQuotesAPI currentCategory w.zenIdNow w.zenIdRandom w.zen with
    | some quote => (quote, calls)
    | none =>
      (getRandomFallbackQuote w.fallbackIndex w.fallbackIdNow w.fallbackIdRandom,
        calls ++ [Call.getRandomFallbackQuote])

/-- Lines 56-63 of `fetchQuote`: when the quote chosen has the id shown last and
`usedQuoteIds.size < 10`, `tryQuotableAPI` is called once more, and its quote is taken when
it has another id. -/
def retryOnRepeat (s : Session) (w : World) (chosen : Quote × List Call) :
    Quote × List Call :=
  if chosen.1.id = s.lastQuoteId ∧ s.usedQuoteIds.length < 10 then
    let calls := chosen.2 ++ [Call.tryQuotableAPI (quotableUrl s.currentCategory w.retryNow)]
    match tryQuotableAPI w.retry with
    | some retryQuote =>
      if retryQuote.id ≠ s.lastQuoteId then (retryQuote, calls) else (chosen.1, calls)
    | none => (chosen.1, calls)
  else chosen

/-- The function `fetchQuote`: the session after the call and the provider calls it made.
No statement of its `try` block raises here (the providers catch their own errors), so the
`catch` branch is not entered. -/
def fetchQuote (s : Session) (w : World) : Session × List Call :=
  if s.isLoading then (s, [])
  else
    let s := { s with isLoading := true }
    let s := hideCopyMessage (showLoading s)
    let chosen := retryOnRepeat s w (providerChain s.currentCategory w)
    let s := { s with lastQuoteId := chosen.1.id }
    let s := { s with usedQuoteIds := setAdd s.usedQuoteIds chosen.1.id }
    let s := if s.usedQuoteIds.length > 50 then { s with usedQuoteIds := [] } else s
    let s := displayQuote { s with currentQuote := some chosen.1 }
    ({ s with isLoading := false }, chosen.2)

/-- The function `handleCategoryChange`, up to the timer it sets: the `fetchQuote` of the
timer is a later call. -/
def handleCategoryChange (s : Session) (category : Category) : Session :=
  if s.currentCategory = category then s else { s with currentCategory := category }

/-! ## Favorites -/

/-- The function `toggleFavorite`.  (`saveFavorites` writes to `localStorage`, which is not
part of `Session`.) -/
def toggleFavorite (s : Session) : Session :=
  match s.currentQuote with
  | none => s
  | some currentQuote =>
    let isFavorite := s.favorites.any (fun fav => fav.id == currentQuote.id)
    let s :=
      if isFavorite then
        { s with favorites := s.favorites.filter (fun fav => fav.id != currentQuote.id) }
      else
        { s with favorites := s.favorites ++ [currentQuote] }
    updateFavoritesDisplay (updateFavoriteButton s)

/-- The test `favorites.some(fav => fav.id === id)` of `toggleFavorite` and
`updateFavoriteButton`. -/
def isFavorite (favorites : List Quote) (id : JsVal) : Bool :=
  favorites.any (fun fav => fav.id == id)

/-- What `localStorage.getItem` does. -/
inductive StorageRead where
  /-- The call raises (storage is not accessible). -/
  | raises
  /-- The key is missing: the call returns `null`. -/
  | missing
  /-- The key holds the string `saved`. -/
  | value (saved : String)

/-- The function `loadFavorites`, on the answer `read` of `localStorage.getItem`, with
`jsonParse` standing for `JSON.parse` on the stored string: `none` when it raises a
`SyntaxError`, otherwise the array of quotes it returns. -/
def loadFavorites (jsonParse : String → Option (List Quote)) (s : Session)
    (read : StorageRead) : Session :=
  match read with
  | .raises => { s with favorites := [] }
  | .missing => s
  | .value saved =>
    if saved ≠ "" then
      match jsonParse saved with
      | some parsed => updateFavoritesDisplay { s with favorites := parsed }
      | none => { s with favorites := [] }
    else s

/-! ## Sessions -/

/-- Toggling the favorite button once for each quote of `quotes`, each being the current
quote when its turn comes. -/
def toggleEach (s : Session) (quotes : List Quote) : Session :=
  quotes.foldl (fun s q => toggleFavorite { s with currentQuote := some q }) s

/-- What happens on the page. -/
inductive Event where
  /-- A call of `fetchQuote` (button, timer or `init`) answered by `w`. -/
  | newQuote (w : World)
  /-- A category button: `handleCategoryChange`. -/
  | category (c : Category)
  /-- The favorite button: `toggleFavorite`. -/
  | favorite
  /-- A click on item `i` of the favorites list: it becomes the current quote. -/
  | pick (i : Nat)

/-- One event. -/
def step (s : Session) : Event → Session
  | .newQuote w => (fetchQuote s w).1
  | .category c => handleCategoryChange s c
  | .favorite => toggleFavorite s
  | .pick i =>
    match s.view.favoritesList.get? i with
    | some fav => displayQuote { s with currentQuote := some fav }
    | none => s

/-- The session after the events `es`, in order. -/
def run (s : Session) (es : List Event) : Session :=
  es.foldl step s

/-! ## Examples used below -/

/-- A page on which nothing is displayed yet. -/
def blankView : View :=
  { loadingVisible := false
    quoteVisible := false
    shownQuote := none
    favoriteActive := false
    copyMessageVisible := false
    favoritesSectionVisible := false
    favoritesCount := 0
    favoritesList := [] }

/-- A quote with id `id`, as the first provider returns it. -/
def sampleQuote (id : String) : Quote :=
  { text := .str "Stay hungry", author := .str "Anon", tags := .array [], id := .str id }

/-- Six quotes with distinct ids, in the order they are made favorites. -/
def sixQuotes : List Quote :=
  [sampleQuote "q1", sampleQuote "q2", sampleQuote "q3", sampleQuote "q4", sampleQuote "q5",
    sampleQuote "q6"]

/-- A stand-in for `JSON.parse` on which every string is malformed. -/
def parseNothing : String → Option (List Quote) := fun _ => none

/-- A value of `Math.random()`: zero. -/
def zeroDraw : Random :=
  { num := 0, den := 1, lt := Nat.zero_lt_one, text := "0" }

/-- A world in which every request fails. -/
def offline : World :=
  { quotableNow := 0
    quotable := .rejected
    zenNow := 0
    zen := .rejected
    zenIdNow := 0
    zenIdRandom := zeroDraw
    fallbackIndex := zeroDraw
    fallbackIdNow := 0
    fallbackIdRandom := zeroDraw
    retryNow := 0
    retry := .rejected }

/-- The JSON object with properties `content`, `author` and `_id`, and no `tags`. -/
def quotableBody (content author id : JsVal) : Json :=
  { root := .obj 0
    props := fun _ key =>
      if key = "content" then content
      else if key = "author" then author
      else if key = "_id" then id
      else .undefined }

/-- A world in which the first provider answers each request with `quotableBody`. -/
def quotableAnswers (content author id : JsVal) : World :=
  { offline with
    quotable := .response true (some (quotableBody content author id))
    retry := .response true (some (quotableBody content author id)) }

/-- The JSON array whose one entry is the object with properties `q` and `a`. -/
def zenBody (q a : JsVal) : Json :=
  { root := .obj 0
    props := fun ref key =>
      if ref = 0 then (if key = "0" then .obj 1 else .undefined)
      else if key = "q" then q
      else if key = "a" then a
      else .undefined }

/-- A world in which only the second provider answers. -/
def zenAnswers (q a : JsVal) : World :=
  { offline with zen := .response true (some (zenBody q a)) }

/-- The events of `n` new quotes, the first provider answering with the ids `0` to
`n - 1`. -/
def distinctQuotes (n : Nat) : List Event :=
  (List.range n).map
    (fun k => Event.newQuote (quotableAnswers (.str "Stay hungry") (.str "Anon") (.num k)))

@[simp]
theorem updateFavoriteButton_favorites (s : Session) :
    (updateFavoriteButton s).favorites = s.favorites := by
  unfold updateFavoriteButton
  cases s.currentQuote <;> rfl

@[simp]
theorem updateFavoriteButton_currentQuote (s : Session) :
    (updateFavoriteButton s).currentQuote = s.currentQuote := by
  unfold updateFavoriteButton
  cases h : s.currentQuote <;> simp [h]

@[simp]
theorem updateFavoritesDisplay_favorites (s : Session) :
    (updateFavoritesDisplay s).favorites = s.favorites := by
  unfold updateFavoritesDisplay
  split <;> rfl

@[simp]
theorem updateFavoritesDisplay_currentQuote (s : Session) :
    (updateFavoritesDisplay s).currentQuote = s.currentQuote := by
  unfold updateFavoritesDisplay
  split <;> rfl

/-- The favorites after `toggleFavorite` with current quote `q`. -/
theorem toggleFavorite_favorites (s : Session) (q : Quote) (h : s.currentQuote = some q) :
    (toggleFavorite s).favorites =
      if isFavorite s.favorites q.id then s.favorites.filter (fun fav => fav.id != q.id)
      else s.favorites ++ [q] := by
  unfold toggleFavorite isFavorite
  simp only [h]
  split <;> simp

/-- The current quote stays what it is under `toggleFavorite`. -/
theorem toggleFavorite_currentQuote (s : Session) :
    (toggleFavorite s).currentQuote = s.currentQuote := by
  unfold toggleFavorite
  cases h : s.currentQuote with
  | none => simp [h]
  | some q =>
    simp only
    split <;> simp [h]

theorem isFavorite_iff (favs : List Quote) (id : JsVal) :
    isFavorite favs id = true ↔ id ∈ favs.map (fun fav => fav.id) := by
  unfold isFavorite
  simp only [List.any_eq_true, beq_iff_eq, List.mem_map]

theorem isFavorite_filter_self (favs : List Quote) (id : JsVal) :
    isFavorite (favs.filter (fun fav => fav.id != id)) id = false := by
  unfold isFavorite
  simp [List.any_eq_false]

theorem filter_eq_self_of_not_favorite (favs : List Quote) (id : JsVal)
    (h : isFavorite favs id = false) : favs.filter (fun fav => fav.id != id) = favs := by
  unfold isFavorite at h
  simp only [List.any_eq_false, beq_iff_eq] at h
  simp only [List.filter_eq_self, bne_iff_ne, ne_eq]
  exact h

/-- The ids stay pairwise distinct under one `toggleFavorite`. -/
theorem toggleFavorite_nodup (s : Session)
    (h : (s.favorites.map (fun fav => fav.id)).Nodup) :
    ((toggleFavorite s).favorites.map (fun fav => fav.id)).Nodup := by
  cases hq : s.currentQuote with
  | none => simpa [toggleFavorite, hq] using h
  | some q =>
    rw [toggleFavorite_favorites s q hq]
    split
    · exact (h.sublist ((List.filter_sublist _).map _))
    · next hf =>
      have hf2 : isFavorite s.favorites q.id = false := by simpa using hf
      have hnot : q.id ∉ s.favorites.map (fun fav => fav.id) := by
        intro hm
        rw [← isFavorite_iff] at hm
        rw [hm] at hf2
        exact Bool.noConfusion hf2
      rw [List.map_append, List.nodup_append]
      refine ⟨h, by simp, ?_⟩
      intro a ha hb
      simp only [List.map_cons, List.map_nil, List.mem_singleton] at hb
      subst hb
      exact hnot ha

/-! ## Favorites: the display, the toggle, the load -/

/-- With at most five favorites the list shown is all of them, newest first. -/
theorem updateFavoritesDisplay_upto_five (s : Session) (h0 : s.favorites ≠ [])
    (h5 : s.favorites.length ≤ 5) :
    (updateFavoritesDisplay s).view.favoritesList = s.favorites.reverse := by
  unfold updateFavoritesDisplay
  have hlen : s.favorites.length ≠ 0 := by
    intro hz
    exact h0 (List.length_eq_zero.mp hz)
  simp only [hlen, if_false]
  rw [List.take_of_length_le h5]

/-- C1, the script at six favorites: after `q1` to `q6` are made favorites in this order,
starting from no favorites, the collection holds the six in insertion order and
`updateFavoritesDisplay` shows `q5, q4, q3, q2, q1`, the first five reversed; the last five
entries, newest first, are `q6, q5, q4, q3, q2`, and the newest favorite `q6` is not in
the list shown. -/
theorem updateFavoritesDisplay_six_favorites :
    (toggleEach (Session.init blankView) sixQuotes).favorites = sixQuotes ∧
    (toggleEach (Session.init blankView) sixQuotes).view.favoritesList =
      [sampleQuote "q5", sampleQuote "q4", sampleQuote "q3", sampleQuote "q2",
        sampleQuote "q1"] ∧
    (sixQuotes.reverse.take 5 =
      [sampleQuote "q6", sampleQuote "q5", sampleQuote "q4", sampleQuote "q3",
        sampleQuote "q2"]) ∧
    sampleQuote "q6" ∉ (toggleEach (Session.init blankView) sixQuotes).view.favoritesList := by
  decide

/-- C4: with `q` the current quote, two calls of `toggleFavorite` leave `isFavorite(q.id)`
as it was and leave the entries with another id as they were, in the same order; from the
empty collection the first call gives `[q]`, with `q` a favorite, and the second gives `[]`,
with `q` not a favorite. -/
theorem toggleFavorite_twice (s : Session) (q : Quote) (h : s.currentQuote = some q) :
    isFavorite (toggleFavorite (toggleFavorite s)).favorites q.id
      = isFavorite s.favorites q.id ∧
    (toggleFavorite (toggleFavorite s)).favorites.filter (fun fav => fav.id != q.id)
      = s.favorites.filter (fun fav => fav.id != q.id) ∧
    (s.favorites = [] →
      (toggleFavorite s).favorites = [q] ∧
      isFavorite (toggleFavorite s).favorites q.id = true ∧
      (toggleFavorite (toggleFavorite s)).favorites = [] ∧
      isFavorite (toggleFavorite (toggleFavorite s)).favorites q.id = false) := by
  have h1 : (toggleFavorite s).currentQuote = some q := by
    rw [toggleFavorite_currentQuote]
    exact h
  rw [toggleFavorite_favorites (toggleFavorite s) q h1, toggleFavorite_favorites s q h]
  cases hf : isFavorite s.favorites q.id with
  | true =>
    have hne : s.favorites ≠ [] := by
      intro he
      rw [he] at hf
      exact Bool.noConfusion hf
    simp only [if_true, isFavorite_filter_self, Bool.false_eq_true, if_false]
    refine ⟨?_, ?_, fun he => absurd he hne⟩
    · simp [isFavorite]
    · simp
  | false =>
    have hin : isFavorite (s.favorites ++ [q]) q.id = true := by simp [isFavorite]
    have hfl : (s.favorites ++ [q]).filter (fun fav => fav.id != q.id) = s.favorites := by
      rw [List.filter_append, filter_eq_self_of_not_favorite s.favorites q.id hf]
      simp
    simp only [Bool.false_eq_true, if_false, hin, if_true, hfl]
    refine ⟨hf, trivial, ?_⟩
    intro he
    refine ⟨?_, trivial, he, hf⟩
    rw [he]
    rfl

/-- C4 at a concrete input: `x` toggled twice on a session without favorites. -/
theorem toggleFavorite_twice_witness :
    ({ Session.init blankView with currentQuote := some (sampleQuote "x") } : Session).currentQuote
      = some (sampleQuote "x") ∧
    (toggleFavorite
      { Session.init blankView with currentQuote := some (sampleQuote "x") }).favorites
      = [sampleQuote "x"] ∧
    (toggleFavorite (toggleFavorite
      { Session.init blankView with currentQuote := some (sampleQuote "x") })).favorites
      = [] :=
  ⟨rfl,
    ((toggleFavorite_twice
      { Session.init blankView with currentQuote := some (sampleQuote "x") }
      (sampleQuote "x") rfl).2.2 rfl).1,
    ((toggleFavorite_twice
      { Session.init blankView with currentQuote := some (sampleQuote "x") }
      (sampleQuote "x") rfl).2.2 rfl).2.2.1⟩

/-- C5: when the ids of the favorites are pairwise distinct, they are pairwise distinct
after any sequence of `toggleFavorite` calls, whatever the current quote of each call. -/
theorem toggleEach_nodup (s : Session) (quotes : List Quote)
    (h : (s.favorites.map (fun fav => fav.id)).Nodup) :
    ((toggleEach s quotes).favorites.map (fun fav => fav.id)).Nodup := by
  induction quotes generalizing s with
  | nil => exact h
  | cons q rest ih =>
    unfold toggleEach
    rw [List.foldl_cons]
    exact ih _ (toggleFavorite_nodup { s with currentQuote := some q } h)

/-- C5 at a concrete input: from no favorites, the quotes `a`, `b`, `a`, `c`, `c`, `a`. -/
theorem toggleEach_nodup_witness :
    ((Session.init blankView).favorites.map (fun fav => fav.id)).Nodup ∧
    ((toggleEach (Session.init blankView)
      [sampleQuote "a", sampleQuote "b", sampleQuote "a", sampleQuote "c", sampleQuote "c",
        sampleQuote "a"]).favorites.map (fun fav => fav.id)).Nodup :=
  ⟨List.nodup_nil, toggleEach_nodup (Session.init blankView) _ List.nodup_nil⟩

/-- C10 as stated fails: with one favorite in the collection and the storage key missing,
`loadFavorites` leaves that favorite in the collection. -/
theorem loadFavorites_missing_keeps_favorites :
    (loadFavorites parseNothing
      { Session.init blankView with favorites := [sampleQuote "x"] } .missing).favorites
      = [sampleQuote "x"] ∧
    (loadFavorites parseNothing
      { Session.init blankView with favorites := [sampleQuote "x"] } .missing).favorites
      ≠ [] := by
  decide

/-- C10, amended: `loadFavorites` always returns; a missing key (and a stored empty string)
leaves the collection as it was, so it leaves it empty in the initial session, where `init`
calls it; a failing `getItem` and a stored non-empty string that fails to parse leave the
collection empty, whatever it was. -/
theorem loadFavorites_spec (jsonParse : String → Option (List Quote)) (s : Session) :
    (loadFavorites jsonParse s .missing).favorites = s.favorites ∧
    (loadFavorites jsonParse s (.value "")).favorites = s.favorites ∧
    (∀ view, (loadFavorites jsonParse (Session.init view) .missing).favorites = []) ∧
    (loadFavorites jsonParse s .raises).favorites = [] ∧
    (∀ saved, saved ≠ "" → jsonParse saved = none →
      (loadFavorites jsonParse s (.value saved)).favorites = []) := by
  refine ⟨rfl, ?_, fun _ => rfl, rfl, ?_⟩
  · simp [loadFavorites]
  · intro saved hs hp
    simp [loadFavorites, hs, hp]

/-- C10, amended, at a concrete input: the stored string `oops` does not parse, and one
favorite was in the collection. -/
theorem loadFavorites_spec_witness :
    (loadFavorites parseNothing
      { Session.init blankView with favorites := [sampleQuote "x"] } (.value "oops")).favorites
      = [] :=
  (loadFavorites_spec parseNothing
    { Session.init blankView with favorites := [sampleQuote "x"] }).2.2.2.2 "oops"
    (by decide) rfl

/-! ## Quote acquisition: lemmas -/

@[simp]
theorem displayQuote_fields (s : Session) :
    (displayQuote s).currentQuote = s.currentQuote ∧
    (displayQuote s).favorites = s.favorites ∧
    (displayQuote s).currentCategory = s.currentCategory ∧
    (displayQuote s).isLoading = s.isLoading ∧
    (displayQuote s).lastQuoteId = s.lastQuoteId ∧
    (displayQuote s).usedQuoteIds = s.usedQuoteIds := by
  unfold displayQuote updateFavoriteButton
  cases h : s.currentQuote <;> simp [h]

theorem displayQuote_shownQuote (s : Session) (q : Quote) (h : s.currentQuote = some q) :
    (displayQuote s).view.shownQuote = some q := by
  unfold displayQuote updateFavoriteButton
  simp [h]

/-- What a `fetchQuote` call that is not blocked leaves behind: the calls made, the current
and the shown quote, the id shown last and the set of used ids. -/
theorem fetchQuote_fields (s : Session) (w : World) (h : s.isLoading = false) :
    (fetchQuote s w).2 = (retryOnRepeat s w (providerChain s.currentCategory w)).2 ∧
    (fetchQuote s w).1.currentQuote
      = some (retryOnRepeat s w (providerChain s.currentCategory w)).1 ∧
    (fetchQuote s w).1.view.shownQuote
      = some (retryOnRepeat s w (providerChain s.currentCategory w)).1 ∧
    (fetchQuote s w).1.lastQuoteId
      = (retryOnRepeat s w (providerChain s.currentCategory w)).1.id ∧
    (fetchQuote s w).1.usedQuoteIds
      = (if 50 < (setAdd s.usedQuoteIds
            (retryOnRepeat s w (providerChain s.currentCategory w)).1.id).length
          then []
          else setAdd s.usedQuoteIds
            (retryOnRepeat s w (providerChain s.currentCategory w)).1.id) ∧
    (fetchQuote s w).1.favorites = s.favorites ∧
    (fetchQuote s w).1.currentCategory = s.currentCategory ∧
    (fetchQuote s w).1.isLoading = false := by
  have hr : ∀ c, retryOnRepeat (hideCopyMessage (showLoading { s with isLoading := true })) w c
      = retryOnRepeat s w c := fun _ => rfl
  have hc : (hideCopyMessage (showLoading { s with isLoading := true })).currentCategory
      = s.currentCategory := rfl
  have hu : (hideCopyMessage (showLoading { s with isLoading := true })).usedQuoteIds
      = s.usedQuoteIds := rfl
  have hfav : (hideCopyMessage (showLoading { s with isLoading := true })).favorites
      = s.favorites := rfl
  unfold fetchQuote
  simp only [h, Bool.false_eq_true, if_false, hr, hc, hu, hfav, gt_iff_lt]
  split
  · simp
    exact displayQuote_shownQuote _ _ rfl
  · simp
    exact displayQuote_shownQuote _ _ rfl

theorem fetchQuote_blocked (s : Session) (w : World) (h : s.isLoading = true) :
    fetchQuote s w = (s, []) := by
  unfold fetchQuote
  simp [h]

theorem mem_setAdd (s : List JsVal) (v : JsVal) : v ∈ setAdd s v := by
  unfold setAdd
  split
  · assumption
  · simp

theorem setAdd_ne_nil (s : List JsVal) (v : JsVal) : setAdd s v ≠ [] :=
  List.ne_nil_of_mem (mem_setAdd s v)

theorem providerChain_cases (c : Category) (w : World) :
    (∀ q, tryQuotableAPI w.quotable = some q →
      providerChain c w = (q, [Call.tryQuotableAPI (quotableUrl c w.quotableNow)])) ∧
    (∀ q, tryQuotableAPI w.quotable = none →
      tryZenQuotesAPI c w.zenIdNow w.zenIdRandom w.zen = some q →
      providerChain c w =
        (q, [Call.tryQuotableAPI (quotableUrl c w.quotableNow),
          Call.tryZenQuotesAPI (zenUrl w.zenNow)])) ∧
    (tryQuotableAPI w.quotable = none →
      tryZenQuotesAPI c w.zenIdNow w.zenIdRandom w.zen = none →
      providerChain c w =
        (getRandomFallbackQuote w.fallbackIndex w.fallbackIdNow w.fallbackIdRandom,
          [Call.tryQuotableAPI (quotableUrl c w.quotableNow),
            Call.tryZenQuotesAPI (zenUrl w.zenNow), Call.getRandomFallbackQuote])) := by
  refine ⟨?_, ?_, ?_⟩
  · intro q hq
    simp [providerChain, hq]
  · intro q hq hz
    simp [providerChain, hq, hz]
  · intro hq hz
    simp [providerChain, hq, hz]

/-- The quote `fetchQuote` settles on was returned by one of the three provider calls it can
make to the network, or is the fallback quote. -/
theorem chosen_source (s : Session) (w : World) (c : Category) :
    tryQuotableAPI w.quotable = some (retryOnRepeat s w (providerChain c w)).1 ∨
    tryZenQuotesAPI c w.zenIdNow w.zenIdRandom w.zen
      = some (retryOnRepeat s w (providerChain c w)).1 ∨
    tryQuotableAPI w.retry = some (retryOnRepeat s w (providerChain c w)).1 ∨
    (tryQuotableAPI w.quotable = none ∧
      tryZenQuotesAPI c w.zenIdNow w.zenIdRandom w.zen = none ∧
      (retryOnRepeat s w (providerChain c w)).1
        = getRandomFallbackQuote w.fallbackIndex w.fallbackIdNow w.fallbackIdRandom) := by
  have hchain : tryQuotableAPI w.quotable = some (providerChain c w).1 ∨
      tryZenQuotesAPI c w.zenIdNow w.zenIdRandom w.zen = some (providerChain c w).1 ∨
      (tryQuotableAPI w.quotable = none ∧
        tryZenQuotesAPI c w.zenIdNow w.zenIdRandom w.zen = none ∧
        (providerChain c w).1
          = getRandomFallbackQuote w.fallbackIndex w.fallbackIdNow w.fallbackIdRandom) := by
    cases hq : tryQuotableAPI w.quotable with
    | some q =>
      left
      rw [(providerChain_cases c w).1 q hq]
    | none =>
      right
      cases hz : tryZenQuotesAPI c w.zenIdNow w.zenIdRandom w.zen with
      | some q =>
        left
        rw [(providerChain_cases c w).2.1 q hq hz]
      | none =>
        right
        rw [(providerChain_cases c w).2.2 hq hz]
        exact ⟨rfl, rfl, rfl⟩
  have hkeep : (retryOnRepeat s w (providerChain c w)).1 = (providerChain c w).1 ∨
      tryQuotableAPI w.retry = some (retryOnRepeat s w (providerChain c w)).1 := by
    unfold retryOnRepeat
    split
    · cases hr : tryQuotableAPI w.retry with
      | none => left; rfl
      | some rq =>
        simp only
        split
        · right; rfl
        · left; rfl
    · left; rfl
  rcases hkeep with hk | hk
  · rw [hk]
    rcases hchain with h1 | h1 | h1
    · exact Or.inl h1
    · exact Or.inr (Or.inl h1)
    · exact Or.inr (Or.inr (Or.inr h1))
  · exact Or.inr (Or.inr (Or.inl hk))

/-- The calls `fetchQuote` makes after the provider chain: one more `tryQuotableAPI` when
the chosen id is the id shown last and fewer than ten ids are in `usedQuoteIds`, none
otherwise. -/
theorem retryOnRepeat_calls (s : Session) (w : World) (chosen : Quote × List Call) :
    (chosen.1.id = s.lastQuoteId → s.usedQuoteIds.length < 10 →
      (retryOnRepeat s w chosen).2
        = chosen.2 ++ [Call.tryQuotableAPI (quotableUrl s.currentCategory w.retryNow)]) ∧
    (chosen.1.id ≠ s.lastQuoteId ∨ 10 ≤ s.usedQuoteIds.length →
      retryOnRepeat s w chosen = chosen) := by
  constructor
  · intro h1 h2
    unfold retryOnRepeat
    rw [if_pos ⟨h1, h2⟩]
    cases tryQuotableAPI w.retry with
    | none => rfl
    | some rq =>
      simp only
      split <;> rfl
  · intro h
    unfold retryOnRepeat
    rw [if_neg]
    rintro ⟨h1, h2⟩
    rcases h with h | h
    · exact h h1
    · omega

/-! ## Quote acquisition: the provider chain and the retry -/

/-- C8: the quote chosen before the repeat check is the one of `tryQuotableAPI` when it
returns one, and then no other provider is called; otherwise the one of `tryZenQuotesAPI`
when it returns one, and then `getRandomFallbackQuote` is not called; otherwise the one of
`getRandomFallbackQuote`.  The chain is a total function, so it always ends with a quote,
and its calls are the first calls of `fetchQuote`. -/
theorem providerChain_order (s : Session) (w : World) :
    (∀ q, tryQuotableAPI w.quotable = some q →
      providerChain s.currentCategory w
        = (q, [Call.tryQuotableAPI (quotableUrl s.currentCategory w.quotableNow)])) ∧
    (∀ q, tryQuotableAPI w.quotable = none →
      tryZenQuotesAPI s.currentCategory w.zenIdNow w.zenIdRandom w.zen = some q →
      providerChain s.currentCategory w =
        (q, [Call.tryQuotableAPI (quotableUrl s.currentCategory w.quotableNow),
          Call.tryZenQuotesAPI (zenUrl w.zenNow)])) ∧
    (tryQuotableAPI w.quotable = none →
      tryZenQuotesAPI s.currentCategory w.zenIdNow w.zenIdRandom w.zen = none →
      providerChain s.currentCategory w =
        (getRandomFallbackQuote w.fallbackIndex w.fallbackIdNow w.fallbackIdRandom,
          [Call.tryQuotableAPI (quotableUrl s.currentCategory w.quotableNow),
            Call.tryZenQuotesAPI (zenUrl w.zenNow), Call.getRandomFallbackQuote])) ∧
    (s.isLoading = false →
      (providerChain s.currentCategory w).2 <+: (fetchQuote s w).2) := by
  refine ⟨(providerChain_cases _ w).1, (providerChain_cases _ w).2.1,
    (providerChain_cases _ w).2.2, ?_⟩
  intro h
  rw [(fetchQuote_fields s w h).1]
  by_cases hc : (providerChain s.currentCategory w).1.id = s.lastQuoteId ∧
      s.usedQuoteIds.length < 10
  · rw [(retryOnRepeat_calls s w _).1 hc.1 hc.2]
    exact List.prefix_append _ _
  · rw [(retryOnRepeat_calls s w _).2 (by
      by_cases h1 : (providerChain s.currentCategory w).1.id = s.lastQuoteId
      · right
        exact Nat.le_of_not_lt (fun h2 => hc ⟨h1, h2⟩)
      · left
        exact h1)]

/-- C8 at concrete inputs: the first provider answers; only the second answers; none
answers. -/
theorem providerChain_order_witness :
    providerChain Category.all (quotableAnswers (.str "Stay hungry") (.str "Anon") (.str "a"))
      = (sampleQuote "a", [Call.tryQuotableAPI (quotableUrl Category.all 0)]) ∧
    providerChain Category.all (zenAnswers (.str "Be water") (.str "Lee"))
      = ({ text := .str "Be water", author := .str "Lee", tags := .array ["wisdom"],
           id := .str ("zen_" ++ toString 0 ++ "_" ++ "0") },
         [Call.tryQuotableAPI (quotableUrl Category.all 0),
           Call.tryZenQuotesAPI (zenUrl 0)]) ∧
    providerChain Category.all offline
      = (getRandomFallbackQuote zeroDraw 0 zeroDraw,
         [Call.tryQuotableAPI (quotableUrl Category.all 0), Call.tryZenQuotesAPI (zenUrl 0),
           Call.getRandomFallbackQuote]) :=
  ⟨(providerChain_order (Session.init blankView)
      (quotableAnswers (.str "Stay hungry") (.str "Anon") (.str "a"))).1 _ rfl,
    (providerChain_order (Session.init blankView)
      (zenAnswers (.str "Be water") (.str "Lee"))).2.1 _ rfl rfl,
    (providerChain_order (Session.init blankView) offline).2.2.1 rfl rfl⟩

theorem getRandomFallbackQuote_from_list (index : Random) (idNow : Nat) (idRandom : Random) :
    ∃ fb, fb ∈ fallbackQuotes ∧
      (getRandomFallbackQuote index idNow idRandom).text = .str fb.text ∧
      (getRandomFallbackQuote index idNow idRandom).author = .str fb.author :=
  ⟨_, List.get_mem _ _ _, rfl, rfl⟩

/-- C3: when `tryQuotableAPI` returns `null` each time the call asks it and
`tryZenQuotesAPI` returns `null`, a `fetchQuote` call that is not blocked stores and shows
a quote whose text and author are those of an entry of `fallbackQuotes`, whatever its id and
whatever `lastQuoteId` and `usedQuoteIds` were. -/
theorem fetchQuote_unavailable_gives_fallback (s : Session) (w : World)
    (h : s.isLoading = false)
    (hq : tryQuotableAPI w.quotable = none)
    (hz : tryZenQuotesAPI s.currentCategory w.zenIdNow w.zenIdRandom w.zen = none)
    (hr : tryQuotableAPI w.retry = none) :
    ∃ q fb, (fetchQuote s w).1.currentQuote = some q ∧
      (fetchQuote s w).1.view.shownQuote = some q ∧
      fb ∈ fallbackQuotes ∧ q.text = .str fb.text ∧ q.author = .str fb.author := by
  obtain ⟨fb, hmem, htext, hauthor⟩ :=
    getRandomFallbackQuote_from_list w.fallbackIndex w.fallbackIdNow w.fallbackIdRandom
  refine ⟨_, fb, (fetchQuote_fields s w h).2.1, (fetchQuote_fields s w h).2.2.1, hmem, ?_⟩
  rcases chosen_source s w s.currentCategory with h1 | h1 | h1 | h1
  · rw [hq] at h1
    exact Option.noConfusion h1
  · rw [hz] at h1
    exact Option.noConfusion h1
  · rw [hr] at h1
    exact Option.noConfusion h1
  · rw [h1.2.2]
    exact ⟨htext, hauthor⟩

/-- C3 at a concrete input: the first call of a session, with every request failing. -/
theorem fetchQuote_unavailable_gives_fallback_witness :
    ∃ q fb, (fetchQuote (Session.init blankView) offline).1.currentQuote = some q ∧
      (fetchQuote (Session.init blankView) offline).1.view.shownQuote = some q ∧
      fb ∈ fallbackQuotes ∧ q.text = .str fb.text ∧ q.author = .str fb.author :=
  fetchQuote_unavailable_gives_fallback (Session.init blankView) offline rfl rfl rfl rfl

theorem toggleFavorite_history (s : Session) :
    (toggleFavorite s).isLoading = s.isLoading ∧
    (toggleFavorite s).lastQuoteId = s.lastQuoteId ∧
    (toggleFavorite s).usedQuoteIds = s.usedQuoteIds := by
  unfold toggleFavorite updateFavoritesDisplay updateFavoriteButton
  cases h : s.currentQuote with
  | none => simp
  | some q =>
    simp only
    repeat' split
    all_goals simp_all

theorem handleCategoryChange_history (s : Session) (c : Category) :
    (handleCategoryChange s c).isLoading = s.isLoading ∧
    (handleCategoryChange s c).lastQuoteId = s.lastQuoteId ∧
    (handleCategoryChange s c).usedQuoteIds = s.usedQuoteIds := by
  unfold handleCategoryChange
  split <;> simp

/-- One event keeps: no call in flight, at most 50 used ids, and the id shown last among
the used ids when there are any. -/
theorem step_history (s : Session) (e : Event)
    (h : s.isLoading = false ∧ s.usedQuoteIds.length ≤ 50 ∧
      (s.usedQuoteIds = [] ∨ s.lastQuoteId ∈ s.usedQuoteIds)) :
    (step s e).isLoading = false ∧ (step s e).usedQuoteIds.length ≤ 50 ∧
      ((step s e).usedQuoteIds = [] ∨ (step s e).lastQuoteId ∈ (step s e).usedQuoteIds) := by
  cases e with
  | newQuote w =>
    obtain ⟨-, -, -, hl, hu, -, -, hload⟩ := fetchQuote_fields s w h.1
    simp only [step]
    rw [hl, hu, hload]
    refine ⟨rfl, ?_⟩
    split
    · exact ⟨Nat.zero_le _, Or.inl rfl⟩
    · next hn => exact ⟨Nat.le_of_not_lt hn, Or.inr (mem_setAdd _ _)⟩
  | category c =>
    obtain ⟨h1, h2, h3⟩ := handleCategoryChange_history s c
    simp only [step]
    rw [h1, h2, h3]
    exact h
  | favorite =>
    obtain ⟨h1, h2, h3⟩ := toggleFavorite_history s
    simp only [step]
    rw [h1, h2, h3]
    exact h
  | pick i =>
    simp only [step]
    split
    · obtain ⟨-, -, -, h1, h2, h3⟩ := displayQuote_fields { s with currentQuote := some _ }
      rw [h1, h2, h3]
      exact h
    · exact h

theorem run_history (s : Session) (es : List Event)
    (h : s.isLoading = false ∧ s.usedQuoteIds.length ≤ 50 ∧
      (s.usedQuoteIds = [] ∨ s.lastQuoteId ∈ s.usedQuoteIds)) :
    (run s es).isLoading = false ∧ (run s es).usedQuoteIds.length ≤ 50 ∧
      ((run s es).usedQuoteIds = [] ∨ (run s es).lastQuoteId ∈ (run s es).usedQuoteIds) := by
  induction es generalizing s with
  | nil => exact h
  | cons e rest ih =>
    unfold run
    rw [List.foldl_cons]
    exact ih _ (step_history s e h)

theorem init_history (view : View) :
    (Session.init view).isLoading = false ∧ (Session.init view).usedQuoteIds.length ≤ 50 ∧
      ((Session.init view).usedQuoteIds = [] ∨
        (Session.init view).lastQuoteId ∈ (Session.init view).usedQuoteIds) :=
  ⟨rfl, Nat.zero_le _, Or.inl rfl⟩

/-- C6: in every session reached from the initial one by events of the page, with any
answers of the providers, `usedQuoteIds` contains `lastQuoteId` whenever it is not empty. -/
theorem lastQuoteId_mem_usedQuoteIds (view : View) (es : List Event)
    (h : (run (Session.init view) es).usedQuoteIds ≠ []) :
    (run (Session.init view) es).lastQuoteId ∈ (run (Session.init view) es).usedQuoteIds := by
  rcases (run_history (Session.init view) es (init_history view)).2.2 with h1 | h1
  · exact absurd h1 h
  · exact h1

/-- C6 at a concrete input: three quotes with distinct ids were shown. -/
theorem lastQuoteId_mem_usedQuoteIds_witness :
    (run (Session.init blankView) (distinctQuotes 3)).usedQuoteIds ≠ [] ∧
    (run (Session.init blankView) (distinctQuotes 3)).lastQuoteId
      ∈ (run (Session.init blankView) (distinctQuotes 3)).usedQuoteIds :=
  ⟨by decide, lastQuoteId_mem_usedQuoteIds blankView (distinctQuotes 3) (by decide)⟩

/-- C7: in every session reached from the initial one `usedQuoteIds` holds at most 50 ids,
also after one more `fetchQuote` call; and when adding the id of that call takes the set
above 50 ids, the call leaves the set empty. -/
theorem usedQuoteIds_bounded (view : View) (es : List Event) (w : World) :
    (run (Session.init view) es).usedQuoteIds.length ≤ 50 ∧
    (fetchQuote (run (Session.init view) es) w).1.usedQuoteIds.length ≤ 50 ∧
    (50 < (setAdd (run (Session.init view) es).usedQuoteIds
        (retryOnRepeat (run (Session.init view) es) w
          (providerChain (run (Session.init view) es).currentCategory w)).1.id).length →
      (fetchQuote (run (Session.init view) es) w).1.usedQuoteIds = []) := by
  obtain ⟨hload, hlen, -⟩ := run_history (Session.init view) es (init_history view)
  refine ⟨hlen, (step_history _ (Event.newQuote w) (run_history _ es (init_history view))).2.1,
    ?_⟩
  intro hbig
  rw [(fetchQuote_fields _ w hload).2.2.2.2.1, if_pos hbig]

set_option maxRecDepth 100000

/-- C7 at a concrete input: fifty quotes with distinct ids were shown, and the next call
brings one more id. -/
theorem usedQuoteIds_bounded_witness :
    (run (Session.init blankView) (distinctQuotes 50)).usedQuoteIds.length = 50 ∧
    (fetchQuote (run (Session.init blankView) (distinctQuotes 50))
      (quotableAnswers (.str "Stay hungry") (.str "Anon") (.num 50))).1.usedQuoteIds = [] :=
  ⟨by decide,
    (usedQuoteIds_bounded blankView (distinctQuotes 50)
      (quotableAnswers (.str "Stay hungry") (.str "Anon") (.num 50))).2.2 (by decide)⟩

end QuoteGenerator
